import Mathlib

/-!
Shallow embedding of the statistical comparison engine of the
`ai-agent-evals` repository (module `analysis/analysis.py` and the p-value
formatter of `analysis/render.py`), together with theorems settling the
spec claims about it.

Modelling conventions:
* python/pandas floats are modelled by exact rationals `ℚ`; a float `NaN`
  (and a missing cell) is modelled by `none` in `RVal := Option ℚ`;
* a pandas `DataFrame` is a list of column names plus a list of rows;
* calls into external libraries (scipy's `wilcoxon`, `ttest_rel`, `t.ppf`,
  the Wilson interval of `binomtest`, pandas' `std` value and `** 0.5`)
  are oracle parameters: the repository only composes their results, so
  theorems assume exactly the documented mathematical properties of those
  routines (for instance that a standard deviation is nonnegative);
* fallible constructors (`__post_init__` validation, `__init__` of the
  comparison and CI classes) return `Except String _`.
-/

namespace AgentEvals

/-- A pandas cell / float value: `none` models `NaN` (or a missing value). -/
abbrev RVal := Option ℚ

/-- Enum `EvaluationScoreDataType` from `analysis.py`. -/
inductive EvaluationScoreDataType where
  | ORDINAL
  | CONTINUOUS
  | BOOLEAN
deriving DecidableEq, Repr

/-- Enum `DesiredDirection` from `analysis.py`. -/
inductive DesiredDirection where
  | INCREASE
  | DECREASE
  | NEUTRAL
deriving DecidableEq, Repr

/-- Dataclass `EvaluationScore` (metadata about an evaluation score). -/
structure EvaluationScore where
  name : String
  evaluator : String
  field : String
  data_type : EvaluationScoreDataType
  desired_direction : DesiredDirection
deriving DecidableEq, Repr

/-- A pandas `DataFrame`: named columns and rows of cells. -/
structure DataFrame where
  cols : List String
  rows : List (List RVal)
deriving DecidableEq, Repr

/-- Module constant `TEST_ID = "inputs.id"`. -/
def TEST_ID : String := "inputs.id"

/-- Module constant `SAMPLE_SIZE_THRESHOLD = 10`. -/
def SAMPLE_SIZE_THRESHOLD : ℕ := 10

/-- Membership of a column name in `df.columns`. -/
def DataFrame.hasCol (df : DataFrame) (c : String) : Bool :=
  df.cols.contains c

/-- The cells of column `c`, in row order (`[]` when the column is absent). -/
def DataFrame.column (df : DataFrame) (c : String) : List RVal :=
  match df.cols.indexOf? c with
  | none => []
  | some i => df.rows.map fun r => (r.get? i).getD none

/-- `df.empty` of pandas: true when there are no rows or no columns. -/
def DataFrame.isEmptyDF (df : DataFrame) : Bool :=
  df.rows.isEmpty || df.cols.isEmpty

/-- Dataclass `EvaluationResult` (variant label plus result table). -/
structure EvaluationResult where
  variant : String
  df_result : DataFrame
  ai_foundry_url : Option String := none
deriving DecidableEq, Repr

/-- Validation performed by `EvaluationResult.__post_init__`: empty variant,
empty table, missing `inputs.id` column and duplicated identities each raise
a `ValueError`, in that order. -/
def EvaluationResult.post_init (r : EvaluationResult) : Except String Unit :=
  if r.variant = "" then
    .error "variant cannot be empty or missing"
  else if r.df_result.isEmptyDF then
    .error "df_result cannot be empty"
  else if ¬ r.df_result.hasCol TEST_ID then
    .error "inputs.id column is required in df_result"
  else if ¬ (r.df_result.column TEST_ID).Nodup then
    .error "inputs.id column must be unique"
  else
    .ok ()

/-- Sum of a list of rationals (a pandas column sum over present values). -/
def listSum (l : List ℚ) : ℚ := l.sum

/-- Arithmetic mean of a list of rationals. -/
def listMean (l : List ℚ) : ℚ := l.sum / l.length

/-- A 2×2 contingency table (`scipy.stats.contingency.crosstab(...).count`):
`n01` is the entry at index `[0, 1]`, and so on. -/
structure ContingencyTable2 where
  n00 : ℕ
  n01 : ℕ
  n10 : ℕ
  n11 : ℕ
deriving DecidableEq, Repr

/-- `scipy.stats.binom.pmf(k, n, 0.5)`, exactly: `C(n, k) / 2 ^ n`. -/
def binomPMF (k n : ℕ) : ℚ := (n.choose k : ℚ) / 2 ^ n

/-- `scipy.stats.binom.cdf(k, n, 0.5)`, exactly: `Σ_{i ≤ k} C(n, i) / 2 ^ n`. -/
def binomCDF (k n : ℕ) : ℚ := ((List.range (k + 1)).map fun i => binomPMF i n).sum

/-- Function `mcnemar` of `analysis.py`: mid-p variant of McNemar's test for a
paired-boolean contingency table. -/
def mcnemar (contingency_table : ContingencyTable2) : ℚ :=
  let n12 := contingency_table.n01
  let n21 := contingency_table.n10
  let n := n12 + n21
  2 * binomCDF (min n12 n21) n - binomPMF n12 n

/-- `crosstab(score_c, score_t, levels=([False, True], [False, True])).count`
on float-valued columns: python's `False == 0.0` and `True == 1.0`, so a pair
is tallied by exact match against `0` and `1` (other values are dropped). -/
def crosstab01 (pairs : List (ℚ × ℚ)) : ContingencyTable2 where
  n00 := (pairs.filter fun p => p.1 == 0 && p.2 == 0).length
  n01 := (pairs.filter fun p => p.1 == 0 && p.2 == 1).length
  n10 := (pairs.filter fun p => p.1 == 1 && p.2 == 0).length
  n11 := (pairs.filter fun p => p.1 == 1 && p.2 == 1).length

/-- The same 2×2 table built directly from paired boolean outcomes over the
fixed level order `{False, True}` on both axes. -/
def crosstabBool (pairs : List (Bool × Bool)) : ContingencyTable2 where
  n00 := (pairs.filter fun p => p.1 == false && p.2 == false).length
  n01 := (pairs.filter fun p => p.1 == false && p.2 == true).length
  n10 := (pairs.filter fun p => p.1 == true && p.2 == false).length
  n11 := (pairs.filter fun p => p.1 == true && p.2 == true).length

/-- Python's boolean as a float: `True = 1.0`, `False = 0.0`. -/
def qOfBool (b : Bool) : ℚ := if b then 1 else 0

/-- numpy / pandas `Series.round()`: round half to even. -/
def roundHalfEven (q : ℚ) : ℤ :=
  let f := ⌊q⌋
  if q - f < 1 / 2 then f
  else if q - f > 1 / 2 then f + 1
  else if f % 2 = 0 then f else f + 1

/-- pandas `Series.var()` with the default `ddof = 1`; `none` models the NaN
returned for fewer than two observations.  `Series.std()` is its square root,
so `std == 0` holds exactly when `sampleVar = some 0` (a NaN standard
deviation compares unequal to `0`, matching the `none` case). -/
def sampleVar (l : List ℚ) : RVal :=
  if l.length < 2 then none
  else some ((l.map fun x => (x - listMean l) ^ 2).sum / ((l.length : ℚ) - 1))

/-- External scipy routines used by `_stat_test`; the repository only forwards
their p-values, so they are oracle parameters of the embedding. -/
structure StatOracles where
  wilcoxon_pratt : List ℚ → RVal
  ttest_rel : List ℚ → List ℚ → RVal

/-- `EvaluationScoreComparison._stat_test` of `analysis.py`. -/
def stat_test (O : StatOracles) (data_type : EvaluationScoreDataType)
    (score_c score_t : List ℚ) : RVal :=
  match data_type with
  | .ORDINAL =>
    let diff := List.zipWith (fun t c => (roundHalfEven (t - c) : ℚ)) score_t score_c
    if diff.all (· == 0) then some 1
    else O.wilcoxon_pratt diff
  | .CONTINUOUS =>
    let diff := List.zipWith (fun t c => t - c) score_t score_c
    if diff.all (· == 0) then some 1
    else if sampleVar diff == some 0 then some 0
    else O.ttest_rel score_c score_t
  | .BOOLEAN =>
    some (mcnemar (crosstab01 (score_c.zip score_t)))

/-- Class `EvaluationScoreComparison` (its stored attributes). -/
structure EvaluationScoreComparison where
  score : EvaluationScore
  control_variant : String
  treatment_variant : String
  count : ℕ
  control_mean : ℚ
  treatment_mean : ℚ
  delta_estimate : ℚ
  p_value : RVal
deriving DecidableEq, Repr

/-- The score column key `f"outputs.{score.evaluator}.{score.field}"`. -/
def col_score_name (score : EvaluationScore) : String :=
  "outputs." ++ score.evaluator ++ "." ++ score.field

/-- pandas inner `merge` on the identity key, keeping left row order; each
left row pairs with the first (with `one_to_one` keys: the unique) right row
sharing its key. -/
def mergeInner (df_c df_t : List (RVal × RVal)) : List (RVal × RVal × RVal) :=
  df_c.filterMap fun p => (df_t.find? fun q => q.1 == p.1).map fun q => (p.1, p.2, q.2)

/-- The projection `df_result[[TEST_ID, col_score]]` of `__init__`, as a list
of `(inputs.id, score)` cell pairs in row order. -/
def scorePairs (df : DataFrame) (col_score : String) : List (RVal × RVal) :=
  (df.column TEST_ID).zip (df.column col_score)

/-- The `score_c` column of the merged frame.  The merge follows the NaN
check, so every cell is `some _` and the `getD 0` default is never read. -/
def score_c_of (df_paired : List (RVal × RVal × RVal)) : List ℚ :=
  df_paired.map fun p => p.2.1.getD 0

/-- The `score_t` column of the merged frame (see `score_c_of`). -/
def score_t_of (df_paired : List (RVal × RVal × RVal)) : List ℚ :=
  df_paired.map fun p => p.2.2.getD 0

/-- `EvaluationScoreComparison.__init__`: column check, projection to
`(inputs.id, score)` pairs, the `validate="one_to_one"` key check of the
inner merge, the unmatched-rows check, the NaN check, then means, delta and
the statistical test. -/
def mkComparison (O : StatOracles) (control treatment : EvaluationResult)
    (score : EvaluationScore) : Except String EvaluationScoreComparison :=
  if ¬ (control.df_result.hasCol (col_score_name score) ∧
        treatment.df_result.hasCol (col_score_name score)) then
    .error "column is required in both results"
  else if ¬ (((scorePairs control.df_result (col_score_name score)).map Prod.fst).Nodup ∧
        ((scorePairs treatment.df_result (col_score_name score)).map Prod.fst).Nodup) then
    .error "Merge keys are not unique"
  else if (mergeInner (scorePairs control.df_result (col_score_name score))
        (scorePairs treatment.df_result (col_score_name score))).length <
      max (scorePairs control.df_result (col_score_name score)).length
        (scorePairs treatment.df_result (col_score_name score)).length then
    .error "Variants have unmatched evaluation results"
  else if ((scorePairs control.df_result (col_score_name score)).any fun p => p.2 == none) ||
      ((scorePairs treatment.df_result (col_score_name score)).any fun p => p.2 == none) then
    .error "Variants have NaN evaluation results"
  else
    .ok { score := score
          control_variant := control.variant
          treatment_variant := treatment.variant
          count := (mergeInner (scorePairs control.df_result (col_score_name score))
            (scorePairs treatment.df_result (col_score_name score))).length
          control_mean := listMean (score_c_of (mergeInner
            (scorePairs control.df_result (col_score_name score))
            (scorePairs treatment.df_result (col_score_name score))))
          treatment_mean := listMean (score_t_of (mergeInner
            (scorePairs control.df_result (col_score_name score))
            (scorePairs treatment.df_result (col_score_name score))))
          delta_estimate := listMean (score_t_of (mergeInner
              (scorePairs control.df_result (col_score_name score))
              (scorePairs treatment.df_result (col_score_name score)))) -
            listMean (score_c_of (mergeInner
              (scorePairs control.df_result (col_score_name score))
              (scorePairs treatment.df_result (col_score_name score))))
          p_value := stat_test O score.data_type
            (score_c_of (mergeInner (scorePairs control.df_result (col_score_name score))
              (scorePairs treatment.df_result (col_score_name score))))
            (score_t_of (mergeInner (scorePairs control.df_result (col_score_name score))
              (scorePairs treatment.df_result (col_score_name score)))) }

/-- Property `EvaluationScoreComparison.treatment_effect`, as a function of
the attributes it reads (`count`, `p_value`, `desired_direction` and the two
means); `none` in `p_value` is the NaN case tested by `isnan`. -/
def treatment_effect (count : ℕ) (p_value : RVal)
    (desired_direction : DesiredDirection) (control_mean treatment_mean : ℚ) : String :=
  if count = 0 then "Zero samples"
  else if count < SAMPLE_SIZE_THRESHOLD then "Too few samples"
  else
    match p_value with
    | none => "Inconclusive"
    | some p =>
      if p > 1 / 20 then "Inconclusive"
      else if desired_direction = .NEUTRAL then "Changed"
      else if desired_direction = .INCREASE ∧ treatment_mean > control_mean then "Improved"
      else if desired_direction = .DECREASE ∧ treatment_mean < control_mean then "Improved"
      else "Degraded"

/-- Sign of `delta = treatment_mean - control_mean`. -/
inductive DeltaSign where
  | pos
  | zero
  | neg
deriving DecidableEq, Repr

/-- The sign of the estimated delta between the two means. -/
def deltaSign (control_mean treatment_mean : ℚ) : DeltaSign :=
  if treatment_mean > control_mean then .pos
  else if treatment_mean < control_mean then .neg
  else .zero

/-- The spec's classification table (§4.3 step 6), written as a function of
exactly the 4-tuple `(paired_count, p_value, desired_direction, delta sign)`
with its conditions checked in the spec's order. -/
def treatmentEffectTable (paired_count : ℕ) (p_value : RVal)
    (dir : DesiredDirection) (s : DeltaSign) : String :=
  if paired_count = 0 then "Zero samples"
  else if paired_count < 10 then "Too few samples"
  else
    match p_value with
    | none => "Inconclusive"
    | some p =>
      if p > 1 / 20 then "Inconclusive"
      else if dir = .NEUTRAL then "Changed"
      else if dir = .INCREASE ∧ s = .pos then "Improved"
      else if dir = .DECREASE ∧ s = .neg then "Improved"
      else "Degraded"

theorem deltaSign_pos_iff (c t : ℚ) : deltaSign c t = .pos ↔ c < t := by
  unfold deltaSign
  split_ifs with h1 h2
  · exact iff_of_true rfl h1
  · exact iff_of_false (by simp) (lt_asymm h2)
  · exact iff_of_false (by simp) h1

theorem deltaSign_neg_iff (c t : ℚ) : deltaSign c t = .neg ↔ t < c := by
  unfold deltaSign
  split_ifs with h1 h2
  · exact iff_of_false (by simp) (lt_asymm h1)
  · exact iff_of_true rfl h2
  · exact iff_of_false (by simp) h2

/-- C1: for every comparison state, `treatment_effect` equals the spec's
decision table applied to `(paired_count, p_value, desired_direction,
sign of delta)`, with the conditions checked in the stated order — in
particular it is a deterministic function of that 4-tuple with no hidden
state. -/
theorem c1_treatment_effect_is_spec_table (count : ℕ) (p : RVal)
    (dir : DesiredDirection) (control_mean treatment_mean : ℚ) :
    treatment_effect count p dir control_mean treatment_mean =
      treatmentEffectTable count p dir (deltaSign control_mean treatment_mean) := by
  unfold treatment_effect treatmentEffectTable SAMPLE_SIZE_THRESHOLD
  cases p <;>
    simp only [deltaSign_pos_iff, deltaSign_neg_iff, gt_iff_lt]

/-- C2 counterexample: with `paired_count = 10` and a p-value of exactly
`0.05`, the code does not classify "Inconclusive" (here, with a Neutral
desired direction, it classifies "Changed"): the guard is `p_value > 0.05`,
so `p = 0.05` counts as significant. -/
theorem c2_exact_threshold_counterexample :
    treatment_effect 10 (some (1 / 20)) .NEUTRAL 0 0 = "Changed" ∧
      treatment_effect 10 (some (1 / 20)) .NEUTRAL 0 0 ≠ "Inconclusive" := by
  have h : treatment_effect 10 (some (1 / 20)) .NEUTRAL 0 0 = "Changed" := by
    unfold treatment_effect SAMPLE_SIZE_THRESHOLD
    norm_num
  refine ⟨h, ?_⟩
  rw [h]
  decide

/-- C2 amended: `paired_count = 9` always classifies as "Too few samples";
and with `paired_count = 10` and `p_value` exactly `0.05` the classification
is never "Inconclusive" — a p-value must be strictly greater than `0.05` to
be inconclusive, so `p = 0.05` itself counts as significant. -/
theorem c2_boundaries_amended :
    (∀ (p : RVal) (dir : DesiredDirection) (c t : ℚ),
        treatment_effect 9 p dir c t = "Too few samples") ∧
      ∀ (dir : DesiredDirection) (c t : ℚ),
        treatment_effect 10 (some (1 / 20)) dir c t ≠ "Inconclusive" := by
  constructor
  · intro p dir c t
    rfl
  · intro dir c t
    unfold treatment_effect SAMPLE_SIZE_THRESHOLD
    norm_num
    split_ifs <;> decide

theorem qOfBool_beq_zero (b : Bool) : (qOfBool b == 0) = (b == false) := by
  cases b <;> decide

theorem qOfBool_beq_one (b : Bool) : (qOfBool b == 1) = (b == true) := by
  cases b <;> decide

theorem crosstab01_map_qOfBool (pairs : List (Bool × Bool)) :
    crosstab01 (pairs.map fun p => (qOfBool p.1, qOfBool p.2)) = crosstabBool pairs := by
  unfold crosstab01 crosstabBool
  simp only [List.filter_map, List.length_map, ContingencyTable2.mk.injEq]
  refine ⟨?_, ?_, ?_, ?_⟩ <;>
    · congr 1
      apply List.filter_congr
      intro p _
      simp [Function.comp, qOfBool_beq_zero, qOfBool_beq_one]

theorem post_init_ok_iff (r : EvaluationResult) :
    r.post_init = .ok () ↔
      ¬ r.variant = "" ∧ r.df_result.isEmptyDF = false ∧
        r.df_result.hasCol TEST_ID = true ∧ (r.df_result.column TEST_ID).Nodup := by
  unfold EvaluationResult.post_init
  split_ifs with h1 h2 h3 h4 <;> simp_all

theorem column_length_of_hasCol (df : DataFrame) (c : String)
    (h : df.hasCol c = true) : (df.column c).length = df.rows.length := by
  unfold DataFrame.hasCol at h
  unfold DataFrame.column
  cases hidx : df.cols.indexOf? c with
  | none =>
    exfalso
    rw [List.indexOf?_eq_none_iff] at hidx
    have hmem : c ∈ df.cols := by simpa using h
    exact hidx c hmem (by simp)
  | some i => simp

theorem scorePairs_length (df : DataFrame) (c : String)
    (h1 : df.hasCol TEST_ID = true) (h2 : df.hasCol c = true) :
    (scorePairs df c).length = df.rows.length := by
  unfold scorePairs
  rw [List.length_zip, column_length_of_hasCol df _ h1, column_length_of_hasCol df _ h2,
    min_self]

theorem scorePairs_map_fst (df : DataFrame) (c : String)
    (h1 : df.hasCol TEST_ID = true) (h2 : df.hasCol c = true) :
    (scorePairs df c).map Prod.fst = df.column TEST_ID := by
  unfold scorePairs
  exact List.map_fst_zip _ _ (by
    rw [column_length_of_hasCol df _ h1, column_length_of_hasCol df _ h2])

theorem mergeInner_length_countP (df_c df_t : List (RVal × RVal)) :
    (mergeInner df_c df_t).length =
      df_c.countP fun p => df_t.any fun q => q.1 == p.1 := by
  unfold mergeInner
  induction df_c with
  | nil => rfl
  | cons p l ih =>
    rw [List.filterMap_cons, List.countP_cons]
    cases hf : df_t.find? fun q => q.1 == p.1 with
    | none =>
      have ht : (df_t.any fun q => q.1 == p.1) = false := by
        rw [List.any_eq_false]
        intro q hq
        have := List.find?_eq_none.mp hf q hq
        simpa using this
      simp [hf, ih, ht]
    | some q =>
      have hmem := List.mem_of_find?_eq_some hf
      have hq := List.find?_some hf
      have ht : (df_t.any fun q => q.1 == p.1) = true := by
        rw [List.any_eq_true]
        exact ⟨q, hmem, hq⟩
      simp [hf, ih, ht]

theorem any_fst_beq_eq_mem (df_t : List (RVal × RVal)) (x : RVal) :
    (df_t.any fun q => q.1 == x) = decide (x ∈ df_t.map Prod.fst) := by
  by_cases h : x ∈ df_t.map Prod.fst
  · rw [decide_eq_true h, List.any_eq_true]
    obtain ⟨q, hq, hfst⟩ := List.mem_map.mp h
    exact ⟨q, hq, by simp [hfst]⟩
  · rw [decide_eq_false h, List.any_eq_false]
    intro q hq
    simp only [beq_iff_eq]
    intro hfst
    exact h (List.mem_map.mpr ⟨q, hq, hfst⟩)

theorem mergeInner_length_eq_card_inter (df_c df_t : List (RVal × RVal))
    (hc : (df_c.map Prod.fst).Nodup) :
    (mergeInner df_c df_t).length =
      ((df_c.map Prod.fst).toFinset ∩ (df_t.map Prod.fst).toFinset).card := by
  rw [mergeInner_length_countP]
  have h1 : (df_c.countP fun p => df_t.any fun q => q.1 == p.1) =
      (df_c.map Prod.fst).countP fun x => df_t.any fun q => q.1 == x := by
    rw [List.countP_map]
    rfl
  rw [h1]
  have h2 : ((df_c.map Prod.fst).countP fun x => df_t.any fun q => q.1 == x) =
      (df_c.map Prod.fst).countP fun x => decide (x ∈ df_t.map Prod.fst) := by
    apply List.countP_congr
    intro x _
    rw [any_fst_beq_eq_mem]
  rw [h2, List.countP_eq_length_filter]
  rw [← List.toFinset_card_of_nodup (hc.filter _)]
  rw [List.toFinset_filter]
  congr 1
  rw [← Finset.filter_mem_eq_inter]
  apply Finset.filter_congr
  intro x _
  simp

theorem inter_card_lt_max_of_ne (a b : List RVal) (ha : a.Nodup) (hb : b.Nodup)
    (hne : a.toFinset ≠ b.toFinset) :
    (a.toFinset ∩ b.toFinset).card < max a.length b.length := by
  by_contra hmax
  push_neg at hmax
  have hA : a.toFinset ∩ b.toFinset = a.toFinset :=
    Finset.eq_of_subset_of_card_le Finset.inter_subset_left
      (by
        rw [List.toFinset_card_of_nodup ha]
        exact le_trans (le_max_left _ _) hmax)
  have hB : a.toFinset ∩ b.toFinset = b.toFinset :=
    Finset.eq_of_subset_of_card_le Finset.inter_subset_right
      (by
        rw [List.toFinset_card_of_nodup hb]
        exact le_trans (le_max_right _ _) hmax)
  exact hne (hA ▸ hB)

/-- C8: `EvaluationResult` construction succeeds iff the variant label is
non-empty, the table is non-empty, the identity column `inputs.id` is present
and its values are duplicate-free; equivalently, validation fails exactly
when one of those conditions is violated, so every successfully constructed
result has a unique, present identity column. -/
theorem c8_post_init_ok_iff (r : EvaluationResult) :
    r.post_init = .ok () ↔
      ¬ (r.variant = "" ∨ r.df_result.isEmptyDF = true ∨
        ¬ r.df_result.hasCol TEST_ID = true ∨ ¬ (r.df_result.column TEST_ID).Nodup) := by
  rw [post_init_ok_iff r]
  constructor
  · rintro ⟨h1, h2, h3, h4⟩
    simp_all
  · intro h
    push_neg at h
    obtain ⟨h1, h2, h3, h4⟩ := h
    exact ⟨h1, by simpa using h2, h3, h4⟩

/-- C5: whenever two validated results have different identity sets (so the
inner join would be smaller than at least one input), comparison
construction fails with the "Variants have unmatched evaluation results"
error instead of silently comparing the intersection. -/
theorem c5_unmatched_pairing_errors (O : StatOracles)
    (control treatment : EvaluationResult) (score : EvaluationScore)
    (hc : control.post_init = .ok ()) (ht : treatment.post_init = .ok ())
    (hcc : control.df_result.hasCol (col_score_name score) = true)
    (htc : treatment.df_result.hasCol (col_score_name score) = true)
    (hne : (control.df_result.column TEST_ID).toFinset ≠
      (treatment.df_result.column TEST_ID).toFinset) :
    mkComparison O control treatment score =
      .error "Variants have unmatched evaluation results" := by
  obtain ⟨-, -, hcid, hcnod⟩ := (post_init_ok_iff control).mp hc
  obtain ⟨-, -, htid, htnod⟩ := (post_init_ok_iff treatment).mp ht
  have hfc := scorePairs_map_fst control.df_result _ hcid hcc
  have hft := scorePairs_map_fst treatment.df_result _ htid htc
  unfold mkComparison
  rw [if_neg (not_not_intro ⟨hcc, htc⟩)]
  rw [if_neg (not_not_intro ⟨hfc ▸ hcnod, hft ▸ htnod⟩)]
  rw [if_pos]
  rw [mergeInner_length_eq_card_inter _ _ (hfc ▸ hcnod), hfc, hft]
  have hlc : (scorePairs control.df_result (col_score_name score)).length =
      (control.df_result.column TEST_ID).length := by
    rw [← hfc, List.length_map]
  have hlt : (scorePairs treatment.df_result (col_score_name score)).length =
      (treatment.df_result.column TEST_ID).length := by
    rw [← hft, List.length_map]
  rw [hlc, hlt]
  exact inter_card_lt_max_of_ne _ _ hcnod htnod hne

theorem treatment_effect_ne_zero_samples (count : ℕ) (p : RVal)
    (dir : DesiredDirection) (c t : ℚ) (h : count ≠ 0) :
    treatment_effect count p dir c t ≠ "Zero samples" := by
  unfold treatment_effect
  rw [if_neg h]
  by_cases h2 : count < SAMPLE_SIZE_THRESHOLD
  · rw [if_pos h2]
    decide
  · rw [if_neg h2]
    cases p with
    | none =>
      show "Inconclusive" ≠ "Zero samples"
      decide
    | some v =>
      show (if v > 1 / 20 then "Inconclusive"
        else if dir = .NEUTRAL then "Changed"
        else if dir = .INCREASE ∧ t > c then "Improved"
        else if dir = .DECREASE ∧ t < c then "Improved"
        else "Degraded") ≠ "Zero samples"
      split_ifs <;> decide

/-- C10: a successfully constructed comparison of a validated control result
always has `count ≥ 1` (both inputs are non-empty and the pairing is
complete), so its treatment effect is never "Zero samples". -/
theorem c10_zero_samples_unreachable (O : StatOracles)
    (control treatment : EvaluationResult) (score : EvaluationScore)
    (comp : EvaluationScoreComparison)
    (hc : control.post_init = .ok ())
    (h : mkComparison O control treatment score = .ok comp) :
    1 ≤ comp.count ∧
      treatment_effect comp.count comp.p_value comp.score.desired_direction
        comp.control_mean comp.treatment_mean ≠ "Zero samples" := by
  obtain ⟨-, hemp, hcid, -⟩ := (post_init_ok_iff control).mp hc
  unfold mkComparison at h
  split_ifs at h with h1 h2 h3 h4
  push_neg at h1
  have hcount : 1 ≤ comp.count := by
    have hrows : control.df_result.rows ≠ [] := by
      unfold DataFrame.isEmptyDF at hemp
      intro hnil
      simp [hnil] at hemp
    have hlen : 1 ≤ (scorePairs control.df_result (col_score_name score)).length := by
      rw [scorePairs_length _ _ hcid h1.1]
      exact List.length_pos.mpr hrows
    have hjoin := not_lt.mp h3
    have : comp.count = (mergeInner (scorePairs control.df_result (col_score_name score))
        (scorePairs treatment.df_result (col_score_name score))).length := by
      have := congrArg (fun x => match x with
        | Except.ok c => c.count
        | Except.error _ => 0) h
      simpa using this.symm
    rw [this]
    calc 1 ≤ (scorePairs control.df_result (col_score_name score)).length := hlen
    _ ≤ max (scorePairs control.df_result (col_score_name score)).length
        (scorePairs treatment.df_result (col_score_name score)).length := le_max_left _ _
    _ ≤ _ := hjoin
  exact ⟨hcount, treatment_effect_ne_zero_samples _ _ _ _ _ (by omega)⟩

theorem find?_fst_self (l : List (RVal × RVal)) (h : (l.map Prod.fst).Nodup) :
    ∀ p ∈ l, (l.find? fun q => q.1 == p.1) = some p := by
  induction l with
  | nil =>
    intro p hp
    cases hp
  | cons a tl ih =>
    intro p hp
    rw [List.map_cons, List.nodup_cons] at h
    rcases List.mem_cons.mp hp with rfl | hmem
    · rw [List.find?_cons_of_pos _ (by simp)]
    · rw [List.find?_cons_of_neg, ih h.2 p hmem]
      simp only [beq_iff_eq]
      intro hcontra
      apply h.1
      rw [hcontra]
      exact List.mem_map_of_mem Prod.fst hmem

theorem filterMap_eq_map_of_forall {α β : Type} (f : α → Option β) (g : α → β)
    (l : List α) (h : ∀ p ∈ l, f p = some (g p)) : l.filterMap f = l.map g := by
  induction l with
  | nil => rfl
  | cons a tl ih =>
    have ha := h a (List.mem_cons_self a tl)
    have htl := ih fun p hp => h p (List.mem_cons_of_mem a hp)
    simp [List.filterMap_cons, ha, htl]

theorem mergeInner_self (l : List (RVal × RVal)) (h : (l.map Prod.fst).Nodup) :
    mergeInner l l = l.map fun p => (p.1, p.2, p.2) := by
  unfold mergeInner
  apply filterMap_eq_map_of_forall
  intro p hp
  rw [find?_fst_self l h p hp]
  rfl

theorem roundHalfEven_zero : roundHalfEven 0 = 0 := by
  unfold roundHalfEven
  norm_num

theorem zipWith_sub_self_all_zero (x : List ℚ) :
    (List.zipWith (fun t c => t - c) x x).all (· == 0) = true := by
  induction x with
  | nil => rfl
  | cons a tl ih => simp [ih]

theorem zipWith_round_sub_self_all_zero (x : List ℚ) :
    (List.zipWith (fun t c => (roundHalfEven (t - c) : ℚ)) x x).all (· == 0) = true := by
  induction x with
  | nil => rfl
  | cons a tl ih => simp [ih, roundHalfEven_zero]

theorem stat_test_self_continuous (O : StatOracles) (x : List ℚ) :
    stat_test O .CONTINUOUS x x = some 1 := by
  unfold stat_test
  simp [zipWith_sub_self_all_zero x]

theorem stat_test_self_ordinal (O : StatOracles) (x : List ℚ) :
    stat_test O .ORDINAL x x = some 1 := by
  unfold stat_test
  simp [zipWith_round_sub_self_all_zero x, roundHalfEven_zero]

/-- C4: a successfully constructed comparison of a validated result against
itself always has `delta_estimate = 0`, and for Continuous or Ordinal score
data types its p-value is exactly 1. -/
theorem c4_self_comparison (O : StatOracles) (r : EvaluationResult)
    (score : EvaluationScore) (comp : EvaluationScoreComparison)
    (h : mkComparison O r r score = .ok comp) :
    comp.delta_estimate = 0 ∧
      ((score.data_type = .CONTINUOUS ∨ score.data_type = .ORDINAL) →
        comp.p_value = some 1) := by
  unfold mkComparison at h
  split_ifs at h with h1 h2 h3 h4
  any_goals cases h
  have hnod := h2.1
  rw [mergeInner_self _ hnod]
  constructor
  · dsimp only
    simp [score_c_of, score_t_of, List.map_map, Function.comp_def]
  · intro hdt
    dsimp only
    have hscore : score_c_of (List.map (fun p => (p.1, p.2, p.2))
          (scorePairs r.df_result (col_score_name score))) =
        score_t_of (List.map (fun p => (p.1, p.2, p.2))
          (scorePairs r.df_result (col_score_name score))) := by
      simp [score_c_of, score_t_of, List.map_map, Function.comp_def]
    rw [hscore]
    rcases hdt with hdt | hdt <;> rw [hdt]
    · exact stat_test_self_continuous O _
    · exact stat_test_self_ordinal O _

/-- C3: on every list of paired boolean outcomes, the boolean branch of the
statistical test builds the 2×2 contingency table over the fixed level order
`{False, True}` on both axes and `mcnemar` returns the mid-p value
`2·BinomCDF(min(n01, n10); n01+n10; ½) − BinomPMF(n01; n01+n10; ½)`, where
`n01` counts (control False, treatment True) pairs and `n10` counts
(control True, treatment False) pairs. -/
theorem c3_mcnemar_is_midp (O : StatOracles) (pairs : List (Bool × Bool)) :
    stat_test O .BOOLEAN (pairs.map fun p => qOfBool p.1) (pairs.map fun p => qOfBool p.2) =
      some
        (2 *
            binomCDF
              (min ((pairs.filter fun p => p.1 == false && p.2 == true).length)
                ((pairs.filter fun p => p.1 == true && p.2 == false).length))
              ((pairs.filter fun p => p.1 == false && p.2 == true).length +
                (pairs.filter fun p => p.1 == true && p.2 == false).length) -
          binomPMF ((pairs.filter fun p => p.1 == false && p.2 == true).length)
            ((pairs.filter fun p => p.1 == false && p.2 == true).length +
              (pairs.filter fun p => p.1 == true && p.2 == false).length)) := by
  unfold stat_test
  rw [List.zip_map', crosstab01_map_qOfBool]
  rfl

/-- Oracle stub for concrete fixtures; the fixtures below never reach the
external scipy calls, so any value works here. -/
def stubStatOracles : StatOracles where
  wilcoxon_pratt := fun _ => none
  ttest_rel := fun _ _ => none

/-- Concrete score metadata used by the fixtures ("fluency", as in the
repository's tests). -/
def fluencyScoreOf (dt : EvaluationScoreDataType) : EvaluationScore where
  name := "fluency"
  evaluator := "fluency"
  field := "score"
  data_type := dt
  desired_direction := .INCREASE

/-- A one-row validated result used to instantiate self-comparison facts. -/
def selfResult : EvaluationResult where
  variant := "base"
  df_result := { cols := [TEST_ID, "outputs.fluency.score"], rows := [[some 1, some 1]] }

/-- The comparison produced by comparing `selfResult` against itself. -/
def selfComp : EvaluationScoreComparison where
  score := fluencyScoreOf .CONTINUOUS
  control_variant := "base"
  treatment_variant := "base"
  count := 1
  control_mean := 1
  treatment_mean := 1
  delta_estimate := 0
  p_value := some 1

theorem selfComp_ok :
    mkComparison stubStatOracles selfResult selfResult (fluencyScoreOf .CONTINUOUS) =
      .ok selfComp := by
  have hmerge : mergeInner
      (scorePairs selfResult.df_result (col_score_name (fluencyScoreOf .CONTINUOUS)))
      (scorePairs selfResult.df_result (col_score_name (fluencyScoreOf .CONTINUOUS))) =
      [(some 1, some 1, some 1)] := by decide
  unfold mkComparison
  rw [if_neg (by decide), if_neg (by decide), if_neg (by decide), if_neg (by decide), hmerge]
  unfold selfComp
  norm_num [score_c_of, score_t_of, listMean, stat_test, fluencyScoreOf, selfResult]

/-- C4 witness: the one-row self comparison is constructed successfully and
indeed has a zero delta and a p-value of 1. -/
theorem c4_self_comparison_witness :
    mkComparison stubStatOracles selfResult selfResult (fluencyScoreOf .CONTINUOUS) =
        .ok selfComp ∧
      selfComp.delta_estimate = 0 ∧ selfComp.p_value = some 1 := by
  refine ⟨selfComp_ok, ?_, ?_⟩
  · exact (c4_self_comparison stubStatOracles selfResult (fluencyScoreOf .CONTINUOUS)
      selfComp selfComp_ok).1
  · exact (c4_self_comparison stubStatOracles selfResult (fluencyScoreOf .CONTINUOUS)
      selfComp selfComp_ok).2 (Or.inl rfl)

/-- C10 witness: the one-row self comparison has `count = 1 ≥ 1` and its
treatment effect is not "Zero samples". -/
theorem c10_zero_samples_unreachable_witness :
    mkComparison stubStatOracles selfResult selfResult (fluencyScoreOf .CONTINUOUS) =
        .ok selfComp ∧
      1 ≤ selfComp.count ∧
      treatment_effect selfComp.count selfComp.p_value selfComp.score.desired_direction
        selfComp.control_mean selfComp.treatment_mean ≠ "Zero samples" :=
  ⟨selfComp_ok,
    c10_zero_samples_unreachable stubStatOracles selfResult selfResult
      (fluencyScoreOf .CONTINUOUS) selfComp rfl selfComp_ok⟩

/-- Control fixture with identities `{1, 2, 3}` (spec scenario). -/
def unmatchedControl : EvaluationResult where
  variant := "control"
  df_result :=
    { cols := [TEST_ID, "outputs.fluency.score"]
      rows := [[some 1, some 1], [some 2, some 1], [some 3, some 1]] }

/-- Treatment fixture with identities `{1, 2, 4}` (spec scenario). -/
def unmatchedTreatment : EvaluationResult where
  variant := "treatment"
  df_result :=
    { cols := [TEST_ID, "outputs.fluency.score"]
      rows := [[some 1, some 1], [some 2, some 1], [some 4, some 1]] }

/-- C5 witness: identities `{1,2,3}` versus `{1,2,4}` make comparison
construction fail with the unmatched-results error. -/
theorem c5_unmatched_pairing_errors_witness :
    mkComparison stubStatOracles unmatchedControl unmatchedTreatment
      (fluencyScoreOf .CONTINUOUS) =
      .error "Variants have unmatched evaluation results" :=
  c5_unmatched_pairing_errors stubStatOracles unmatchedControl unmatchedTreatment
    (fluencyScoreOf .CONTINUOUS) rfl rfl (by decide) (by decide)
    (by
      intro h
      have h3 : (some 3 : RVal) ∈ (unmatchedControl.df_result.column TEST_ID).toFinset := by
        decide
      rw [h] at h3
      exact absurd h3 (by decide))

/-- The per-row difference series `score_t - score_c` of the continuous (and,
before rounding, ordinal) branch of `_stat_test`. -/
def pairedDiff (score_c score_t : List ℚ) : List ℚ :=
  List.zipWith (fun t c => t - c) score_t score_c

theorem sum_sq_dev_eq_zero_iff (l : List ℚ) (m : ℚ) :
    ((l.map fun x => (x - m) ^ 2).sum = 0) ↔ ∀ x ∈ l, x = m := by
  induction l with
  | nil => simp
  | cons a tl ih =>
    rw [List.map_cons, List.sum_cons]
    have h1 : (0:ℚ) ≤ (a - m) ^ 2 := sq_nonneg _
    have h2 : (0:ℚ) ≤ (tl.map fun x => (x - m) ^ 2).sum := by
      apply List.sum_nonneg
      intro x hx
      obtain ⟨y, -, rfl⟩ := List.mem_map.mp hx
      exact sq_nonneg _
    rw [add_eq_zero_iff_of_nonneg h1 h2]
    simp [ih, sub_eq_zero, List.forall_mem_cons, pow_eq_zero_iff]

theorem constant_list_sum (l : List ℚ) (d : ℚ) (h : ∀ x ∈ l, x = d) :
    l.sum = l.length * d := by
  induction l with
  | nil => simp
  | cons a tl ih =>
    rw [List.sum_cons, List.length_cons,
      ih fun x hx => h x (List.mem_cons_of_mem a hx), h a (List.mem_cons_self a tl)]
    push_cast
    ring

theorem listMean_constant (l : List ℚ) (d : ℚ) (hne : l ≠ []) (h : ∀ x ∈ l, x = d) :
    listMean l = d := by
  unfold listMean
  rw [constant_list_sum l d h]
  have hlen : (l.length : ℚ) ≠ 0 := by
    have := List.length_pos.mpr hne
    positivity
  field_simp

theorem sampleVar_eq_zero_iff (l : List ℚ) :
    sampleVar l = some 0 ↔ 2 ≤ l.length ∧ ∀ x ∈ l, x = listMean l := by
  unfold sampleVar
  split_ifs with h
  · constructor
    · intro hcontra
      cases hcontra
    · intro hcontra
      omega
  · push_neg at h
  -- here h : 2 ≤ l.length
    have hden : ((l.length : ℚ) - 1) ≠ 0 := by
      have h2 : (2:ℚ) ≤ (l.length : ℚ) := by exact_mod_cast h
      linarith
    rw [Option.some.injEq, div_eq_zero_iff]
    constructor
    · rintro (hs | hd)
      · exact ⟨h, (sum_sq_dev_eq_zero_iff l _).mp hs⟩
      · exact absurd hd hden
    · rintro ⟨-, hall⟩
      exact Or.inl ((sum_sq_dev_eq_zero_iff l _).mpr hall)

/-- Control fixture: two rows with scores `0, 0`. -/
def degenerateControl : EvaluationResult where
  variant := "control"
  df_result :=
    { cols := [TEST_ID, "outputs.fluency.score"]
      rows := [[some 1, some 0], [some 2, some 0]] }

/-- Treatment fixture: two rows with scores `1, 1` — every per-row difference
is the constant `1`, so the difference series has zero variance without being
all zero. -/
def degenerateTreatment : EvaluationResult where
  variant := "treatment"
  df_result :=
    { cols := [TEST_ID, "outputs.fluency.score"]
      rows := [[some 1, some 1], [some 2, some 1]] }

/-- The comparison produced by the degenerate fixtures: the zero-variance
branch fires and assigns `p = 0`. -/
def degenerateComp : EvaluationScoreComparison where
  score := fluencyScoreOf .CONTINUOUS
  control_variant := "control"
  treatment_variant := "treatment"
  count := 2
  control_mean := 0
  treatment_mean := 1
  delta_estimate := 1
  p_value := some 0

/-- C7 counterexample: a successfully constructed continuous comparison whose
per-row differences are `[1, 1]` — not all zero, hence past the first check —
still reaches the zero-variance branch and is assigned `p = 0`; the branch is
reachable, contrary to the claim. -/
theorem c7_zero_variance_reachable_counterexample :
    mkComparison stubStatOracles degenerateControl degenerateTreatment
        (fluencyScoreOf .CONTINUOUS) = .ok degenerateComp ∧
      degenerateComp.p_value = some 0 ∧
      ¬ (pairedDiff [0, 0] [1, 1]).all (· == 0) = true := by
  refine ⟨?_, rfl, by norm_num [pairedDiff]⟩
  have hmerge : mergeInner
      (scorePairs degenerateControl.df_result (col_score_name (fluencyScoreOf .CONTINUOUS)))
      (scorePairs degenerateTreatment.df_result (col_score_name (fluencyScoreOf .CONTINUOUS))) =
      [(some 1, some 0, some 1), (some 2, some 0, some 1)] := by decide
  unfold mkComparison
  rw [if_neg (by decide), if_neg (by decide), if_neg (by decide), if_neg (by decide), hmerge]
  unfold degenerateComp
  norm_num [score_c_of, score_t_of, listMean, stat_test, fluencyScoreOf,
    degenerateControl, degenerateTreatment, sampleVar]

/-- C7 amended: the zero-variance-but-not-all-zero case of the continuous
branch is reachable — it holds exactly when there are at least two paired
differences and all of them equal one and the same nonzero constant — and
whenever it holds the test assigns `p = 0`. -/
theorem c7_zero_variance_branch_amended (O : StatOracles) (score_c score_t : List ℚ) :
    (¬ (pairedDiff score_c score_t).all (· == 0) = true ∧
        sampleVar (pairedDiff score_c score_t) = some 0 →
      stat_test O .CONTINUOUS score_c score_t = some 0) ∧
    (¬ (pairedDiff score_c score_t).all (· == 0) = true ∧
        sampleVar (pairedDiff score_c score_t) = some 0 ↔
      2 ≤ (pairedDiff score_c score_t).length ∧
        ∃ d : ℚ, d ≠ 0 ∧ ∀ x ∈ pairedDiff score_c score_t, x = d) := by
  constructor
  · rintro ⟨hne, hvar⟩
    unfold stat_test
    unfold pairedDiff at hne hvar
    dsimp only
    rw [if_neg hne, if_pos (by simp [hvar])]
  · constructor
    · rintro ⟨hne, hvar⟩
      obtain ⟨hlen, hall⟩ := (sampleVar_eq_zero_iff _).mp hvar
      refine ⟨hlen, listMean (pairedDiff score_c score_t), ?_, hall⟩
      intro hd0
      apply hne
      rw [List.all_eq_true]
      intro x hx
      rw [beq_iff_eq]
      rw [hall x hx, hd0]
    · rintro ⟨hlen, d, hd0, hall⟩
      have hne : pairedDiff score_c score_t ≠ [] := by
        intro hnil
        rw [hnil] at hlen
        simp at hlen
      have hmean : listMean (pairedDiff score_c score_t) = d :=
        listMean_constant _ d hne hall
      constructor
      · intro hcontra
        rw [List.all_eq_true] at hcontra
        obtain ⟨x, hx⟩ := List.exists_mem_of_ne_nil _ hne
        have := hcontra x hx
        rw [beq_iff_eq] at this
        exact hd0 (by rw [← hall x hx, this])
      · exact (sampleVar_eq_zero_iff _).mpr ⟨hlen, by rw [hmean]; exact hall⟩

/-- C7 amended witness: with control scores `[0, 0]` and treatment scores
`[1, 1]` the differences are `[1, 1]` and the test returns `p = 0`. -/
theorem c7_zero_variance_branch_amended_witness :
    stat_test stubStatOracles .CONTINUOUS [0, 0] [1, 1] = some 0 :=
  (c7_zero_variance_branch_amended stubStatOracles [0, 0] [1, 1]).1
    ⟨by norm_num [pairedDiff], by norm_num [sampleVar, pairedDiff, listMean]⟩

/-- Stored value of a CI bound: python `None` (ordinal), a float NaN, or a
number. -/
inductive CIBound where
  | absent
  | nan
  | val (q : ℚ)
deriving DecidableEq, Repr

/-- NaN-propagating float subtraction. -/
def rsub : RVal → RVal → RVal
  | some a, some b => some (a - b)
  | _, _ => none

/-- NaN-propagating float addition. -/
def radd : RVal → RVal → RVal
  | some a, some b => some (a + b)
  | _, _ => none

/-- NaN-propagating float multiplication. -/
def rmul : RVal → RVal → RVal
  | some a, some b => some (a * b)
  | _, _ => none

/-- NaN-propagating float division (never applied with a zero divisor on the
paths modelled here). -/
def rdiv : RVal → RVal → RVal
  | some a, some b => some (a / b)
  | _, _ => none

/-- Store a possibly-NaN float as a CI bound. -/
def CIBound.ofR : RVal → CIBound
  | none => .nan
  | some q => .val q

/-- `ci_lower ≤ mean` under float comparison semantics: false when the bound
is `None` or either side is NaN. -/
def ciLowerLe : CIBound → RVal → Prop
  | .val q, some m => q ≤ m
  | _, _ => False

/-- `mean ≤ ci_upper` under float comparison semantics (see `ciLowerLe`). -/
def ciUpperGe : CIBound → RVal → Prop
  | .val q, some m => m ≤ q
  | _, _ => False

/-- The non-null cells of a column (pandas skips NaN in `sum`/`count`/`mean`
and `std`). -/
def seriesDropNa (l : List RVal) : List ℚ := l.filterMap id

/-- pandas `Series.mean()`: NaN on an all-null column. -/
def seriesMean (l : List RVal) : RVal :=
  if (seriesDropNa l).isEmpty then none else some (listMean (seriesDropNa l))

/-- External scipy / numpy routines used by `_compute_ci`: `Series.std()`'s
value on at least two observations, `count ** 0.5`, `t.ppf(0.975, df)` and
the `wilsoncc` proportion interval of `binomtest`. -/
structure CIOracles where
  std : List ℚ → ℚ
  sqrt : ℕ → ℚ
  t_ppf : ℕ → ℚ
  wilsoncc : ℕ → ℕ → ℚ × ℚ

/-- pandas `Series.std()` with `ddof = 1`: NaN below two non-null
observations, otherwise the external standard deviation value. -/
def seriesStd (O : CIOracles) (l : List RVal) : RVal :=
  if (seriesDropNa l).length < 2 then none else some (O.std (seriesDropNa l))

/-- The column `outputs.<evaluator>.<field>` read by `EvaluationScoreCI`. -/
def ciData (result : EvaluationResult) (score : EvaluationScore) : List RVal :=
  result.df_result.column (col_score_name score)

/-- `self.count = result.df_result.shape[0]`: the full row count, with no
filtering of missing values. -/
def ciCount (result : EvaluationResult) : ℕ := result.df_result.rows.length

/-- `data.sum()` of the boolean branch (NaN cells skipped). -/
def boolK (l : List RVal) : ℚ := (seriesDropNa l).sum

/-- `data.count()` of the boolean branch: the non-null cell count. -/
def boolN (l : List RVal) : ℕ := (seriesDropNa l).length

/-- `stderr = data.std() / (count ** 0.5)` of the continuous branch. -/
def stderrOf (O : CIOracles) (l : List RVal) (count : ℕ) : RVal :=
  rdiv (seriesStd O l) (some (O.sqrt count))

/-- Class `EvaluationScoreCI` (its stored attributes). -/
structure EvaluationScoreCI where
  score : EvaluationScore
  variant : String
  count : ℕ
  mean : RVal
  ci_lower : CIBound
  ci_upper : CIBound
deriving DecidableEq, Repr

/-- `EvaluationScoreCI.__init__` plus `_compute_ci`: column check, then per
data type — Boolean: `binomtest(data.sum(), data.count())` (scipy rejects a
non-integral or out-of-range `k` and `n = 0` with a `ValueError`) with the
Wilson continuity-corrected interval; Continuous: mean ± `t.ppf(0.975, n-1)`
times `std / count ** 0.5`; Ordinal: mean only, bounds left `None`. -/
def mkCI (O : CIOracles) (result : EvaluationResult) (score : EvaluationScore) :
    Except String EvaluationScoreCI :=
  if ¬ result.df_result.hasCol (col_score_name score) then
    .error "column is required in result"
  else
    match score.data_type with
    | .BOOLEAN =>
      if (boolK (ciData result score)).den = 1 ∧ 0 ≤ (boolK (ciData result score)).num ∧
          (boolK (ciData result score)).num ≤ (boolN (ciData result score) : ℤ) ∧
          1 ≤ boolN (ciData result score) then
        .ok { score := score
              variant := result.variant
              count := ciCount result
              mean := some (boolK (ciData result score) / boolN (ciData result score))
              ci_lower := .val (O.wilsoncc (boolK (ciData result score)).num.toNat
                (boolN (ciData result score))).1
              ci_upper := .val (O.wilsoncc (boolK (ciData result score)).num.toNat
                (boolN (ciData result score))).2 }
      else
        .error "binomtest rejects the given k and n"
    | .CONTINUOUS =>
      .ok { score := score
            variant := result.variant
            count := ciCount result
            mean := seriesMean (ciData result score)
            ci_lower := .ofR (rsub (seriesMean (ciData result score))
              (rmul (some (O.t_ppf (ciCount result - 1)))
                (stderrOf O (ciData result score) (ciCount result))))
            ci_upper := .ofR (radd (seriesMean (ciData result score))
              (rmul (some (O.t_ppf (ciCount result - 1)))
                (stderrOf O (ciData result score) (ciCount result)))) }
    | .ORDINAL =>
      .ok { score := score
            variant := result.variant
            count := ciCount result
            mean := seriesMean (ciData result score)
            ci_lower := .absent
            ci_upper := .absent }

/-- Oracle stub for the CI fixtures (their values are irrelevant where the
fixtures exercise the code). -/
def stubCIOracles : CIOracles where
  std := fun _ => 0
  sqrt := fun _ => 1
  t_ppf := fun _ => 1
  wilsoncc := fun _ _ => (0, 1)

/-- A validated one-row result with a continuous score. -/
def singleRowContinuous : EvaluationResult where
  variant := "v"
  df_result := { cols := [TEST_ID, "outputs.fluency.score"], rows := [[some 1, some 1]] }

/-- The CI computed on `singleRowContinuous`: the sample standard deviation
of a single observation is NaN (`ddof = 1`), so both bounds are NaN. -/
def singleRowCI : EvaluationScoreCI where
  score := fluencyScoreOf .CONTINUOUS
  variant := "v"
  count := 1
  mean := some 1
  ci_lower := .nan
  ci_upper := .nan

/-- C6 counterexample: on a well-formed (validated) one-row result with a
continuous score, the CI construction succeeds but both bounds are NaN
(pandas `std` with `ddof = 1` of one observation), so
`lower_bound ≤ mean` fails. -/
theorem c6_counterexample_single_row :
    singleRowContinuous.post_init = .ok () ∧
      mkCI stubCIOracles singleRowContinuous (fluencyScoreOf .CONTINUOUS) =
        .ok singleRowCI ∧
      singleRowCI.score.data_type = .CONTINUOUS ∧
      ¬ ciLowerLe singleRowCI.ci_lower singleRowCI.mean := by
  refine ⟨rfl, ?_, rfl, fun h => h⟩
  have hdata : ciData singleRowContinuous (fluencyScoreOf .CONTINUOUS) = [some 1] := by
    decide
  have hdrop : seriesDropNa [some (1 : ℚ)] = [1] := by decide
  have hmean : seriesMean [some (1 : ℚ)] = some 1 := by
    unfold seriesMean
    rw [hdrop]
    norm_num [listMean]
  have hstderr : stderrOf stubCIOracles [some (1 : ℚ)] (ciCount singleRowContinuous) =
      none := by
    unfold stderrOf seriesStd
    rw [hdrop]
    rfl
  unfold mkCI
  rw [if_neg (by decide)]
  show Except.ok _ = _
  rw [hdata, hmean, hstderr]
  rfl

/-- C6 amended: under the documented mathematical properties of the external
routines (a nonnegative standard deviation and square root, a nonnegative
0.975 t-quantile for `df ≥ 1`, and a Wilson interval containing the sample
proportion), a successfully computed CI satisfies
`lower_bound ≤ mean ≤ upper_bound` for Boolean scores, and for Continuous
scores with at least two non-null observations (with exactly one observation
the standard deviation and hence both bounds are NaN); for Ordinal scores no
interval is computed: both bounds are absent and only the sample mean is
returned. -/
theorem c6_ci_bounds_amended (O : CIOracles) (result : EvaluationResult)
    (score : EvaluationScore) (ci : EvaluationScoreCI)
    (hstd : ∀ l, 0 ≤ O.std l) (hsqrt : ∀ n, 0 ≤ O.sqrt n)
    (htppf : ∀ df, 1 ≤ df → 0 ≤ O.t_ppf df)
    (hwcc : ∀ (k n : ℕ), (k : ℚ) ≤ (n : ℚ) → 1 ≤ n →
      (O.wilsoncc k n).1 ≤ (k : ℚ) / n ∧ (k : ℚ) / n ≤ (O.wilsoncc k n).2)
    (h : mkCI O result score = .ok ci) :
    (score.data_type = .BOOLEAN →
      ciLowerLe ci.ci_lower ci.mean ∧ ciUpperGe ci.ci_upper ci.mean) ∧
    (score.data_type = .CONTINUOUS →
      2 ≤ (seriesDropNa (ciData result score)).length →
      ciLowerLe ci.ci_lower ci.mean ∧ ciUpperGe ci.ci_upper ci.mean) ∧
    (score.data_type = .ORDINAL →
      ci.ci_lower = .absent ∧ ci.ci_upper = .absent ∧
        ci.mean = seriesMean (ciData result score)) := by
  unfold mkCI at h
  by_cases h1 : result.df_result.hasCol (col_score_name score) = true
  case neg =>
    rw [if_pos (by simpa using h1)] at h
    exact absurd h (by simp)
  rw [if_neg (by simpa using h1)] at h
  rcases hdt : score.data_type
  all_goals rw [hdt] at h
  all_goals dsimp only at h
  · -- ORDINAL branch of `_compute_ci`
    cases h
    refine ⟨?_, ?_, fun _ => ⟨rfl, rfl, rfl⟩⟩
    · exact fun hx => absurd hx (by decide)
    · exact fun hx => absurd hx (by decide)
  · -- CONTINUOUS branch of `_compute_ci`
    cases h
    refine ⟨?_, fun _ hn => ?_, ?_⟩
    · exact fun hx => absurd hx (by decide)
    · have hne : ¬ (seriesDropNa (ciData result score)).isEmpty = true := by
        rw [List.isEmpty_iff_length_eq_zero]
        omega
      have hstdv : seriesStd O (ciData result score) =
          some (O.std (seriesDropNa (ciData result score))) := by
        unfold seriesStd
        rw [if_neg (by omega)]
      have hcnt : (seriesDropNa (ciData result score)).length ≤ ciCount result := by
        unfold ciCount
        calc (seriesDropNa (ciData result score)).length
            ≤ (ciData result score).length := List.length_filterMap_le _ _
          _ = result.df_result.rows.length := by
              unfold ciData
              exact column_length_of_hasCol _ _ h1
      have hdf : 1 ≤ ciCount result - 1 := by omega
      have hz : 0 ≤ O.t_ppf (ciCount result - 1) := htppf _ hdf
      have hse : 0 ≤ O.std (seriesDropNa (ciData result score)) / O.sqrt (ciCount result) :=
        div_nonneg (hstd _) (hsqrt _)
      have hzse := mul_nonneg hz hse
      unfold seriesMean stderrOf
      rw [if_neg hne, hstdv]
      unfold rdiv rmul rsub radd CIBound.ofR ciLowerLe ciUpperGe
      constructor
      · linarith
      · linarith
    · exact fun hx => absurd hx (by decide)
  · -- BOOLEAN branch of `_compute_ci`
    by_cases h2 : (boolK (ciData result score)).den = 1 ∧
        0 ≤ (boolK (ciData result score)).num ∧
        (boolK (ciData result score)).num ≤ (boolN (ciData result score) : ℤ) ∧
        1 ≤ boolN (ciData result score)
    case neg =>
      rw [if_neg h2] at h
      exact absurd h (by simp)
    rw [if_pos h2] at h
    cases h
    obtain ⟨hden, hnum, hle, hn⟩ := h2
    have hknum : ((boolK (ciData result score)).num : ℚ) = boolK (ciData result score) :=
      Rat.coe_int_num_of_den_eq_one hden
    have htoNat : ((boolK (ciData result score)).num.toNat : ℤ) =
        (boolK (ciData result score)).num := Int.toNat_of_nonneg hnum
    have hk : ((boolK (ciData result score)).num.toNat : ℚ) = boolK (ciData result score) := by
      rw [← hknum]
      exact_mod_cast htoNat
    have hkn : ((boolK (ciData result score)).num.toNat : ℚ) ≤
        (boolN (ciData result score) : ℚ) := by
      rw [hk, ← hknum]
      exact_mod_cast hle
    obtain ⟨hlo, hhi⟩ := hwcc _ _ hkn hn
    rw [hk] at hlo hhi
    refine ⟨fun _ => ⟨hlo, hhi⟩, ?_, ?_⟩
    · exact fun hx => absurd hx (by decide)
    · exact fun hx => absurd hx (by decide)

/-- A validated two-row result with a boolean score (`True`, `False`). -/
def pairBooleanResult : EvaluationResult where
  variant := "v"
  df_result :=
    { cols := [TEST_ID, "outputs.fluency.score"]
      rows := [[some 1, some 1], [some 2, some 0]] }

/-- The CI computed on `pairBooleanResult` with the stub oracles. -/
def pairBooleanCI : EvaluationScoreCI where
  score := fluencyScoreOf .BOOLEAN
  variant := "v"
  count := 2
  mean := some (1 / 2)
  ci_lower := .val 0
  ci_upper := .val 1

/-- C6 amended witness: on a concrete boolean column `[True, False]` the
computed interval contains the sample proportion `1/2`. -/
theorem c6_ci_bounds_amended_witness :
    mkCI stubCIOracles pairBooleanResult (fluencyScoreOf .BOOLEAN) = .ok pairBooleanCI ∧
      ciLowerLe pairBooleanCI.ci_lower pairBooleanCI.mean ∧
      ciUpperGe pairBooleanCI.ci_upper pairBooleanCI.mean := by
  have hdata : ciData pairBooleanResult (fluencyScoreOf .BOOLEAN) = [some 1, some 0] := by
    decide
  have hk : boolK (ciData pairBooleanResult (fluencyScoreOf .BOOLEAN)) = 1 := by
    unfold boolK
    rw [hdata]
    have hdrop : seriesDropNa [some (1 : ℚ), some 0] = [1, 0] := by decide
    rw [hdrop]
    norm_num
  have hnn : boolN (ciData pairBooleanResult (fluencyScoreOf .BOOLEAN)) = 2 := by
    unfold boolN
    rw [hdata]
    decide
  have hcond : (boolK (ciData pairBooleanResult (fluencyScoreOf .BOOLEAN))).den = 1 ∧
      0 ≤ (boolK (ciData pairBooleanResult (fluencyScoreOf .BOOLEAN))).num ∧
      (boolK (ciData pairBooleanResult (fluencyScoreOf .BOOLEAN))).num ≤
        (boolN (ciData pairBooleanResult (fluencyScoreOf .BOOLEAN)) : ℤ) ∧
      1 ≤ boolN (ciData pairBooleanResult (fluencyScoreOf .BOOLEAN)) := by
    rw [hk, hnn]
    norm_num
  have hok : mkCI stubCIOracles pairBooleanResult (fluencyScoreOf .BOOLEAN) =
      .ok pairBooleanCI := by
    unfold mkCI
    rw [if_neg (by decide)]
    show (if _ then _ else _) = _
    rw [if_pos hcond, hk, hnn]
    unfold pairBooleanCI
    norm_num [ciCount, pairBooleanResult, stubCIOracles, fluencyScoreOf]
  refine ⟨hok, ?_⟩
  exact (c6_ci_bounds_amended stubCIOracles pairBooleanResult (fluencyScoreOf .BOOLEAN)
      pairBooleanCI (fun _ => le_refl 0) (fun _ => by norm_num [stubCIOracles])
      (fun _ _ => by norm_num [stubCIOracles])
      (fun k n hkn hn => by
        have hnq : (0 : ℚ) < (n : ℚ) := by exact_mod_cast Nat.lt_of_lt_of_le Nat.zero_lt_one hn
        constructor
        · show (0 : ℚ) ≤ (k : ℚ) / n
          positivity
        · show (k : ℚ) / n ≤ 1
          rw [div_le_one hnq]
          exact hkn)
      hok).1 rfl

/-- Zero-pad a natural number to three digits (fractional part of `".3f"`). -/
def pad3 (k : ℕ) : String :=
  if k < 10 then "00" ++ toString k
  else if k < 100 then "0" ++ toString k
  else toString k

/-- python `format(x, ".3f")` for a nonnegative value: round half to even at
three decimal places and print exactly three decimals. -/
def fmt3f (x : ℚ) : String :=
  toString (roundHalfEven (x * 1000) / 1000) ++ "." ++
    pad3 (roundHalfEven (x * 1000) % 1000).toNat

/-- The decimal exponent of a positive rational: the `e` with
`10 ^ e ≤ q < 10 ^ (e + 1)`. -/
def decExp (q : ℚ) : ℤ :=
  if q < 10 ^ ((Nat.log 10 q.num.toNat : ℤ) - (Nat.log 10 q.den : ℤ)) then
    (Nat.log 10 q.num.toNat : ℤ) - (Nat.log 10 q.den : ℤ) - 1
  else
    (Nat.log 10 q.num.toNat : ℤ) - (Nat.log 10 q.den : ℤ)

/-- The exponent digits of python's `".0e"` format: always at least two. -/
def expDigits (ea : ℕ) : String :=
  if ea < 10 then "0" ++ toString ea else toString ea

/-- python `format(x, ".0e")` for `0 < x < 1` (the p-value range used below):
the mantissa is rounded half to even to a single digit, carrying into the
exponent when it rounds to 10, and the exponent has at least two digits. -/
def fmt0e (x : ℚ) : String :=
  if roundHalfEven (x / 10 ^ decExp x) = 10 then
    "1e-" ++ expDigits (-(decExp x + 1)).toNat
  else
    toString (roundHalfEven (x / 10 ^ decExp x)) ++ "e-" ++ expDigits (-(decExp x)).toNat

/-- python `"...".replace("e-0", "e-")`: scan left to right, replace every
non-overlapping occurrence, continue scanning after the replacement. -/
def replace_e0 : List Char → List Char
  | 'e' :: '-' :: '0' :: rest => 'e' :: '-' :: replace_e0 rest
  | c :: rest => c :: replace_e0 rest
  | [] => []

/-- `fmt_pvalue` of `render.py`: `x ≤ 0` renders as `"≈0"`; `x < 0.001`
renders in `".0e"` scientific notation with the `"e-0"` prefix of the
exponent compacted to `"e-"`; anything else renders with three decimals. -/
def fmt_pvalue (x : ℚ) : String :=
  if x ≤ 0 then "≈0"
  else if x < 1 / 1000 then String.mk (replace_e0 (fmt0e x).data)
  else fmt3f x

/-- C9: formatting a p-value of exactly 0 yields the literal `"≈0"`;
formatting `0.0001` yields `"1e-4"` (scientific notation, exponent -4,
leading zero of the exponent compacted away); every positive value below
`0.001` renders through the compacted scientific-notation branch, and every
value of at least `0.001` renders with three decimal places. -/
theorem c9_fmt_pvalue_spec :
    fmt_pvalue 0 = "≈0" ∧
      fmt_pvalue (1 / 10000) = "1e-4" ∧
      (∀ x : ℚ, 0 < x → x < 1 / 1000 →
        fmt_pvalue x = String.mk (replace_e0 (fmt0e x).data)) ∧
      (∀ x : ℚ, 1 / 1000 ≤ x → fmt_pvalue x = fmt3f x) := by
  refine ⟨by norm_num [fmt_pvalue], ?_, ?_, ?_⟩
  · have hnum : ((1 : ℚ) / 10000).num = 1 := by norm_num
    have hden : ((1 : ℚ) / 10000).den = 10000 := by norm_num
    have hlog1 : Nat.log 10 (1 : ℤ).toNat = 0 := by simp
    have hlog4 : Nat.log 10 10000 = 4 := by
      rw [Nat.log_eq_of_pow_le_of_lt_pow] <;> norm_num
    have he : decExp (1 / 10000) = -4 := by
      unfold decExp
      rw [hnum, hden, hlog1, hlog4]
      norm_num
    have harg : (1 / 10000 : ℚ) / 10 ^ (-4 : ℤ) = 1 := by
      norm_num
    have hd : roundHalfEven ((1 / 10000 : ℚ) / 10 ^ (-4 : ℤ)) = 1 := by
      rw [harg]
      unfold roundHalfEven
      norm_num
    have hf : fmt0e (1 / 10000) = "1e-04" := by
      unfold fmt0e
      rw [he, hd]
      norm_num [expDigits]
      decide
    unfold fmt_pvalue
    rw [if_neg (by norm_num), if_pos (by norm_num), hf]
    rfl
  · intro x hx hlt
    unfold fmt_pvalue
    rw [if_neg (not_le.mpr hx), if_pos hlt]
  · intro x hge
    have hx : ¬ x ≤ 0 := by
      intro hcontra
      have : (1 / 1000 : ℚ) ≤ 0 := le_trans hge hcontra
      norm_num at this
    have hlt : ¬ x < 1 / 1000 := not_lt.mpr hge
    unfold fmt_pvalue
    rw [if_neg hx, if_neg hlt]

/-- C9 witness: the scientific branch at `1/2000` and the three-decimals
branch at `1/2`, instantiated from the general statement. -/
theorem c9_fmt_pvalue_spec_witness :
    fmt_pvalue (1 / 2000) = String.mk (replace_e0 (fmt0e (1 / 2000)).data) ∧
      fmt_pvalue (1 / 2) = fmt3f (1 / 2) :=
  ⟨c9_fmt_pvalue_spec.2.2.1 (1 / 2000) (by norm_num) (by norm_num),
    c9_fmt_pvalue_spec.2.2.2 (1 / 2) (by norm_num)⟩

/-- C2 amended witness: concrete instances of the two amended boundary
facts. -/
theorem c2_boundaries_amended_witness :
    treatment_effect 9 (some (1 / 20)) .NEUTRAL 0 0 = "Too few samples" ∧
      treatment_effect 10 (some (1 / 20)) .INCREASE 0 1 ≠ "Inconclusive" :=
  ⟨c2_boundaries_amended.1 (some (1 / 20)) .NEUTRAL 0 0,
    c2_boundaries_amended.2 .INCREASE 0 1⟩

/-- C8 witness: a concrete result with a non-empty variant, non-empty table,
present and duplicate-free identity column validates successfully. -/
theorem c8_post_init_ok_iff_witness : selfResult.post_init = .ok () :=
  (c8_post_init_ok_iff selfResult).mpr (by decide)

end AgentEvals
